import Mathlib

/-!
Shallow embedding of the object-storage ACL core of the repository
(`server/objectAcl.ts` and `server/objectStorage.ts`).

Strings are modelled as Lean `String`; the JavaScript string methods used by
the source (`split`, `startsWith`, `endsWith`, `slice(1)`, `join`) are
embedded as structurally recursive functions over the character list so that
they evaluate by kernel reduction.  The S3 backend is modelled as a partial
map from (bucket, key) references to stored objects; the asynchronous SDK
calls (`HeadObjectCommand`, `CopyObjectCommand`) become pure lookups and
functional updates of that state, and a thrown JavaScript exception becomes
the `Except.error` branch.  A state-modifying operation returns the new
backend state in its `Except.ok` branch, so an operation that fails leaves
the backend unchanged by construction.
-/

namespace AllOut

/-- JS `s.split(sep)` for a one-character separator, over the char list:
every occurrence of the separator is a cut point and empty pieces are kept,
exactly as `String.prototype.split` behaves for a non-regex separator. -/
def splitListOn (c : Char) : List Char → List (List Char)
  | [] => [[]]
  | x :: xs =>
    if x = c then [] :: splitListOn c xs
    else
      match splitListOn c xs with
      | [] => [[x]]
      | h :: t => (x :: h) :: t

/-- JS `s.split(c)` (single-character separator). -/
def jsSplit (c : Char) (s : String) : List String :=
  (splitListOn c s.data).map String.mk

/-- JS `s.startsWith(p)`. -/
def jsStartsWith (s p : String) : Bool :=
  p.data.isPrefixOf s.data

/-- JS `s.endsWith(p)`. -/
def jsEndsWith (s p : String) : Bool :=
  p.data.reverse.isPrefixOf s.data.reverse

/-- JS `s.slice(1)`: drop the first character. -/
def jsSlice1 (s : String) : String :=
  String.mk (s.data.drop 1)

/-- JS `array.join(sep)`. -/
def jsJoin (sep : String) : List String → String
  | [] => ""
  | [x] => x
  | x :: xs => x ++ sep ++ jsJoin sep xs

/-- The two JavaScript error shapes the modelled code can throw:
`objectNotFoundError` is the `ObjectNotFoundError` class declared in
`objectStorage.ts`; `error msg` is a plain `new Error(msg)`. -/
inductive JsError where
  | objectNotFoundError
  | error (message : String)
deriving DecidableEq

/-- `enum ObjectPermission { READ = "read", WRITE = "write" }`. -/
inductive ObjectPermission where
  | READ
  | WRITE
deriving DecidableEq

/-- `interface ObjectAccessGroup { type: ObjectAccessGroupType; id: string }`.
The TypeScript enum `ObjectAccessGroupType` declares no members, and TS enums
are erased at runtime: the `type` value of any group reaching the code at
runtime comes from JSON-parsed metadata and is an arbitrary value, modelled
here as a string. -/
structure ObjectAccessGroup where
  type : String
  id : String
deriving DecidableEq

/-- `interface ObjectAclRule { group: ObjectAccessGroup; permission: ObjectPermission }`. -/
structure ObjectAclRule where
  group : ObjectAccessGroup
  permission : ObjectPermission
deriving DecidableEq

/-- `interface ObjectAclPolicy { owner: string; visibility: "public" | "private";
aclRules?: Array<ObjectAclRule> }`.  `visibility` is a string at runtime (the
code compares it with `=== "public"`); the optional `aclRules` field is an
`Option`. -/
structure ObjectAclPolicy where
  owner : String
  visibility : String
  aclRules : Option (List ObjectAclRule) := none
deriving DecidableEq

/-- `const ACL_POLICY_METADATA_KEY = "custom-acl-policy"`. -/
def ACL_POLICY_METADATA_KEY : String := "custom-acl-policy"

/-- A backend metadata value is a string; a string is modelled by its
`JSON.parse` outcome as a policy: `policy p` stands for a string that parses
to the policy `p` (in particular the string `JSON.stringify p` written by
`setObjectAclPolicy`), and `raw s` stands for a string `s` that does not
yield a policy (empty, or failing `JSON.parse`). -/
inductive MetadataValue where
  | policy (p : ObjectAclPolicy)
  | raw (s : String)
deriving DecidableEq

/-- A (bucket, key) pair identifying one backend object (the `bucket` and
`key` fields of the `S3Object` wrapper). -/
structure ObjectRef where
  bucket : String
  key : String
deriving DecidableEq

/-- The attributes of one stored backend object that the modelled code reads
or writes: the custom metadata map and the HTTP metadata headers returned by
`HeadObjectCommand` (`Metadata`, `ContentType`, `ContentLength`,
`CacheControl`, `ContentEncoding`, `ContentDisposition`). -/
structure StoredObject where
  metadata : String → Option MetadataValue
  contentType : Option String := none
  contentLength : Option Nat := none
  cacheControl : Option String := none
  contentEncoding : Option String := none
  contentDisposition : Option String := none

/-- The backend: a partial map from references to stored objects. -/
def S3State : Type := ObjectRef → Option StoredObject

/-- Result shape of `S3ObjectWrapper.getMetadata` in `objectStorage.ts`. -/
structure MetadataResult where
  contentType : Option String
  size : Option Nat
  metadata : String → Option MetadataValue

/-- `S3ObjectWrapper.getMetadata`: a HEAD on the object; a backend "not
found" is remapped to `ObjectNotFoundError`. -/
def getMetadata (st : S3State) (ref : ObjectRef) : Except JsError MetadataResult :=
  match st ref with
  | none => Except.error JsError.objectNotFoundError
  | some obj =>
    Except.ok { contentType := obj.contentType, size := obj.contentLength,
                metadata := obj.metadata }

/-- `isPermissionAllowed(requested, granted)` from `objectAcl.ts`. -/
def isPermissionAllowed (requested : ObjectPermission) (granted : ObjectPermission) : Bool :=
  if requested = ObjectPermission.READ then
    [ObjectPermission.READ, ObjectPermission.WRITE].contains granted
  else
    granted = ObjectPermission.WRITE

/-- The value returned by the access-group factory: the
`BaseObjectAccessGroup` abstract class (membership lookup abstracted to a
boolean function). -/
structure BaseObjectAccessGroup where
  type : String
  id : String
  hasMember : String → Bool

/-- `createObjectAccessGroup`: the `switch` over `group.type` has no case
other than `default`, because the `ObjectAccessGroupType` enum declares no
members, so the factory throws `Unknown access group type` for every group. -/
def createObjectAccessGroup (group : ObjectAccessGroup) :
    Except JsError BaseObjectAccessGroup :=
  Except.error (JsError.error ("Unknown access group type: " ++ group.type))

/-- The `for (const rule of aclPolicy.aclRules || [])` loop at the end of
`canAccessObject`: per rule, build the access group (an exception
propagates), then allow when the user is a member and the granted permission
satisfies the requested one; otherwise continue with the remaining rules. -/
def checkAclRules (userId : String) (requestedPermission : ObjectPermission) :
    List ObjectAclRule → Except JsError Bool
  | [] => Except.ok false
  | rule :: rest =>
    match createObjectAccessGroup rule.group with
    | Except.error e => Except.error e
    | Except.ok accessGroup =>
      if accessGroup.hasMember userId &&
          isPermissionAllowed requestedPermission rule.permission then
        Except.ok true
      else
        checkAclRules userId requestedPermission rest

/-- `getObjectAclPolicy` from `objectAcl.ts`: read the object metadata, give
`null` when the reserved field is absent or falsy (`!aclPolicy`), parse it
otherwise; the surrounding `try/catch` turns every failure (missing object,
`JSON.parse` throwing) into `null`, so the embedding is total and returns an
`Option`. -/
def getObjectAclPolicy (st : S3State) (objectFile : ObjectRef) :
    Option ObjectAclPolicy :=
  match getMetadata st objectFile with
  | Except.error _ => none
  | Except.ok m =>
    match m.metadata ACL_POLICY_METADATA_KEY with
    | none => none
    | some (MetadataValue.policy p) => some p
    | some (MetadataValue.raw _) => none

/-- `canAccessObject` from `objectAcl.ts`.  Note that the guard
`if (!userId) return false;` is also taken for an empty-string `userId`,
since `!""` is `true` in JavaScript. -/
def canAccessObject (st : S3State) (userId : Option String) (objectFile : ObjectRef)
    (requestedPermission : ObjectPermission) : Except JsError Bool :=
  match getObjectAclPolicy st objectFile with
  | none => Except.ok false
  | some aclPolicy =>
    if aclPolicy.visibility = "public" ∧ requestedPermission = ObjectPermission.READ then
      Except.ok true
    else
      match userId with
      | none => Except.ok false
      | some uid =>
        if uid = "" then Except.ok false
        else if aclPolicy.owner = uid then Except.ok true
        else checkAclRules uid requestedPermission (aclPolicy.aclRules.getD [])

/-- `setObjectAclPolicy` from `objectAcl.ts`: read the current metadata
(failures swallowed), set the reserved key to the serialized policy, HEAD the
object (a missing object turns into a plain
`Error("Object not found: bucket/key")`), merge the spread
`{...existingMetadata, ...currentMetadata}` (keys of `currentMetadata` win),
and copy the object onto itself with the merged metadata and the HTTP headers
read from the HEAD.  The copy leaves the object body, hence its length,
unchanged.  On success the new backend state is returned. -/
def setObjectAclPolicy (st : S3State) (objectFile : ObjectRef)
    (aclPolicy : ObjectAclPolicy) : Except JsError S3State :=
  let currentMetadata0 : String → Option MetadataValue :=
    match getMetadata st objectFile with
    | Except.ok m => m.metadata
    | Except.error _ => fun _ => none
  let currentMetadata : String → Option MetadataValue := fun k =>
    if k = ACL_POLICY_METADATA_KEY then some (MetadataValue.policy aclPolicy)
    else currentMetadata0 k
  match st objectFile with
  | none =>
    Except.error (JsError.error
      ("Object not found: " ++ objectFile.bucket ++ "/" ++ objectFile.key))
  | some obj =>
    let existingMetadata := obj.metadata
    let updatedMetadata : String → Option MetadataValue := fun k =>
      match currentMetadata k with
      | some v => some v
      | none => existingMetadata k
    let copied : StoredObject :=
      { metadata := updatedMetadata
        contentType := obj.contentType
        contentLength := obj.contentLength
        cacheControl := obj.cacheControl
        contentEncoding := obj.contentEncoding
        contentDisposition := obj.contentDisposition }
    Except.ok (fun r => if r = objectFile then some copied else st r)

/-- The read-only configuration consumed by `objectStorage.ts`:
`R2_BUCKET_NAME` and `PRIVATE_OBJECT_DIR` (environment variables default to
`""` when unset). -/
structure Env where
  r2BucketName : String
  privateObjectDir : String

/-- `ObjectStorageService.getBucketName`: throws when `R2_BUCKET_NAME` is
empty. -/
def getBucketName (env : Env) : Except JsError String :=
  if env.r2BucketName = "" then
    Except.error (JsError.error "R2_BUCKET_NAME not set. Set R2_BUCKET_NAME env var.")
  else
    Except.ok env.r2BucketName

/-- `ObjectStorageService.getPrivateObjectDir`: throws when
`PRIVATE_OBJECT_DIR` is empty. -/
def getPrivateObjectDir (env : Env) : Except JsError String :=
  if env.privateObjectDir = "" then
    Except.error (JsError.error "PRIVATE_OBJECT_DIR not set. Set PRIVATE_OBJECT_DIR env var.")
  else
    Except.ok env.privateObjectDir

/-- Result shape `{ bucketName, objectName }` of `parseObjectPath`. -/
structure ParsedPath where
  bucketName : String
  objectName : String
deriving DecidableEq

/-- `parseObjectPath` from `objectStorage.ts`: a path not starting with `/`
is the object name under the default bucket; otherwise split on `/`, keep
the non-empty segments, fail on zero segments, use the default bucket for
one segment, and take the first segment as bucket and the joined rest as
object name for two or more. -/
def parseObjectPath (env : Env) (path : String) : Except JsError ParsedPath :=
  if ¬ jsStartsWith path "/" then
    match getBucketName env with
    | Except.error e => Except.error e
    | Except.ok bucket => Except.ok { bucketName := bucket, objectName := path }
  else
    match (jsSplit '/' path).filter (fun p => p.length > 0) with
    | [] =>
      Except.error (JsError.error
        "Invalid path: must contain at least a bucket name or object name")
    | [seg] =>
      match getBucketName env with
      | Except.error e => Except.error e
      | Except.ok bucket => Except.ok { bucketName := bucket, objectName := seg }
    | seg :: rest =>
      Except.ok { bucketName := seg, objectName := jsJoin "/" rest }

/-- `ObjectStorageService.getObjectEntityFile`: reject paths without the
`/objects/` prefix, then paths whose `/`-split after `slice(1)` has fewer
than two parts, both with `ObjectNotFoundError`; resolve the remainder under
the private dir (normalized to end with `/`), and HEAD the resolved object,
remapping any failure of the HEAD to `ObjectNotFoundError`. -/
def getObjectEntityFile (env : Env) (st : S3State) (objectPath : String) :
    Except JsError ObjectRef :=
  if ¬ jsStartsWith objectPath "/objects/" then
    Except.error JsError.objectNotFoundError
  else
    let parts := jsSplit '/' (jsSlice1 objectPath)
    if parts.length < 2 then
      Except.error JsError.objectNotFoundError
    else
      let entityId := jsJoin "/" (parts.drop 1)
      match getPrivateObjectDir env with
      | Except.error e => Except.error e
      | Except.ok dir =>
        let entityDir := if jsEndsWith dir "/" then dir else dir ++ "/"
        let objectEntityPath := entityDir ++ entityId
        match parseObjectPath env objectEntityPath with
        | Except.error e => Except.error e
        | Except.ok parsed =>
          let ref : ObjectRef := { bucket := parsed.bucketName, key := parsed.objectName }
          match getMetadata st ref with
          | Except.ok _ => Except.ok ref
          | Except.error e =>
            if e = JsError.objectNotFoundError then Except.error e
            else Except.error JsError.objectNotFoundError

/-- Concrete public policy used to instantiate the C1 theorem. -/
def c1Policy : ObjectAclPolicy := { owner := "u1", visibility := "public", aclRules := some [] }

/-- Stored object carrying `c1Policy` in its reserved metadata field. -/
def c1Obj : StoredObject :=
  { metadata := fun k =>
      if k = ACL_POLICY_METADATA_KEY then some (MetadataValue.policy c1Policy) else none }

/-- Backend holding exactly one object, at `(b, k)`, with `c1Policy`. -/
def c1St : S3State := fun r => if r = ⟨"b", "k"⟩ then some c1Obj else none

/-- Private policy whose owner is the empty string, for the C2 counterexample. -/
def c2Policy : ObjectAclPolicy := { owner := "", visibility := "private", aclRules := some [] }

/-- Stored object carrying `c2Policy` in its reserved metadata field. -/
def c2Obj : StoredObject :=
  { metadata := fun k =>
      if k = ACL_POLICY_METADATA_KEY then some (MetadataValue.policy c2Policy) else none }

/-- Backend holding exactly one object, at `(b, k)`, with `c2Policy`. -/
def c2St : S3State := fun r => if r = ⟨"b", "k"⟩ then some c2Obj else none

/-- Private policy owned by the non-empty user `u1`, for the C2 witness. -/
def c2uPolicy : ObjectAclPolicy := { owner := "u1", visibility := "private", aclRules := some [] }

/-- Stored object carrying `c2uPolicy` in its reserved metadata field. -/
def c2uObj : StoredObject :=
  { metadata := fun k =>
      if k = ACL_POLICY_METADATA_KEY then some (MetadataValue.policy c2uPolicy) else none }

/-- Backend holding exactly one object, at `(b, k)`, with `c2uPolicy`. -/
def c2uSt : S3State := fun r => if r = ⟨"b", "k"⟩ then some c2uObj else none

/-- The policy stored on the C5 object before the policy write. -/
def c5OldPolicy : ObjectAclPolicy := { owner := "u0", visibility := "private" }

/-- The policy written by `setObjectAclPolicy` in the C5 scenario. -/
def c5NewPolicy : ObjectAclPolicy := { owner := "u1", visibility := "private" }

/-- The reference of the C5 object. -/
def c5Ref : ObjectRef := { bucket := "b", key := "k" }

/-- The C5 object before the write: it already carries `c5OldPolicy` under
the reserved key, one other custom metadata key, and all four HTTP metadata
headers. -/
def c5PreObj : StoredObject :=
  { metadata := fun k =>
      if k = ACL_POLICY_METADATA_KEY then some (MetadataValue.policy c5OldPolicy)
      else if k = "color" then some (MetadataValue.raw "blue") else none
    contentType := some "text/plain"
    contentLength := some 42
    cacheControl := some "max-age=60"
    contentEncoding := some "gzip"
    contentDisposition := some "inline" }

/-- Backend holding exactly the C5 object. -/
def c5St : S3State := fun r => if r = c5Ref then some c5PreObj else none

/-- The backend state after `setObjectAclPolicy c5St c5Ref c5NewPolicy`. -/
def c5Post : S3State :=
  match setObjectAclPolicy c5St c5Ref c5NewPolicy with
  | Except.ok st2 => st2
  | Except.error _ => c5St

/-- Stored object with no reserved policy field, for the C6 witness. -/
def c6ObjAbsent : StoredObject := { metadata := fun _ => none }

/-- Stored object whose reserved policy field holds an unparseable string,
for the C6 witness. -/
def c6ObjRaw : StoredObject :=
  { metadata := fun k =>
      if k = ACL_POLICY_METADATA_KEY then some (MetadataValue.raw "not json") else none }

/-- Backend holding the two C6 objects. -/
def c6St : S3State := fun r =>
  if r = ⟨"b", "k"⟩ then some c6ObjAbsent
  else if r = ⟨"b", "k2"⟩ then some c6ObjRaw else none

/-- Configuration used by the C8 witness. -/
def c8Env : Env := { r2BucketName := "bkt", privateObjectDir := "/priv" }

/-- An ACL rule whose group has an (inevitably unknown) group type, for C9. -/
def c9Rule : ObjectAclRule :=
  { group := { type := "grp", id := "g1" }, permission := ObjectPermission.READ }

/-- Private policy with one ACL rule, for the C9 witness. -/
def c9Policy : ObjectAclPolicy :=
  { owner := "u1", visibility := "private", aclRules := some [c9Rule] }

/-- Stored object carrying `c9Policy` in its reserved metadata field. -/
def c9Obj : StoredObject :=
  { metadata := fun k =>
      if k = ACL_POLICY_METADATA_KEY then some (MetadataValue.policy c9Policy) else none }

/-- Backend holding exactly one object, at `(b, k)`, with `c9Policy`. -/
def c9St : S3State := fun r => if r = ⟨"b", "k"⟩ then some c9Obj else none

/-- Claim C1: on a policy with public visibility, `canAccessObject` allows a
READ request for every caller, in particular an absent one; on the same
public policy with empty `aclRules`, a WRITE request from an absent caller
is denied. -/
theorem c1_public_read_anonymous (st : S3State) (ref : ObjectRef) (p : ObjectAclPolicy)
    (uid : Option String)
    (hp : getObjectAclPolicy st ref = some p) (hv : p.visibility = "public") :
    canAccessObject st uid ref ObjectPermission.READ = Except.ok true ∧
    (p.aclRules = some [] →
      canAccessObject st none ref ObjectPermission.WRITE = Except.ok false) := by
  constructor
  · simp only [canAccessObject, hp]
    simp [hv]
  · intro _
    simp only [canAccessObject, hp]
    simp [hv]

/-- Witness for C1: a backend with one public-visibility policy; anonymous
READ is allowed and anonymous WRITE is denied. -/
theorem c1_witness :
    (getObjectAclPolicy c1St ⟨"b", "k"⟩ = some c1Policy ∧ c1Policy.visibility = "public") ∧
    canAccessObject c1St none ⟨"b", "k"⟩ ObjectPermission.READ = Except.ok true ∧
    (c1Policy.aclRules = some [] →
      canAccessObject c1St none ⟨"b", "k"⟩ ObjectPermission.WRITE = Except.ok false) :=
  ⟨⟨rfl, rfl⟩, c1_public_read_anonymous c1St ⟨"b", "k"⟩ c1Policy none rfl rfl⟩

/-- Claim C2, amended: the owner bypass holds for every present, non-empty
caller userId equal to `policy.owner`, for both permissions and independent
of `aclRules`.  (The unamended claim fails for the empty-string userId,
which JavaScript falsiness treats as an absent caller.) -/
theorem c2_owner_bypass (st : S3State) (ref : ObjectRef) (p : ObjectAclPolicy)
    (uid : String) (perm : ObjectPermission)
    (hp : getObjectAclPolicy st ref = some p)
    (hne : uid ≠ "") (hown : p.owner = uid) :
    canAccessObject st (some uid) ref perm = Except.ok true := by
  simp only [canAccessObject, hp]
  split
  · rfl
  · simp [hne, hown]

/-- Counterexample to C2 as stated: a private policy whose owner is the
empty string denies the caller whose userId is that same empty string,
because `if (!userId) return false;` fires before the owner comparison. -/
theorem c2_counterexample :
    getObjectAclPolicy c2St ⟨"b", "k"⟩ = some c2Policy ∧
    c2Policy.owner = "" ∧
    canAccessObject c2St (some "") ⟨"b", "k"⟩ ObjectPermission.READ = Except.ok false :=
  ⟨rfl, rfl, rfl⟩

/-- Witness for C2: owner `u1` gets WRITE on a private policy with empty
`aclRules`. -/
theorem c2_witness :
    (getObjectAclPolicy c2uSt ⟨"b", "k"⟩ = some c2uPolicy ∧ ("u1" : String) ≠ "" ∧
      c2uPolicy.owner = "u1") ∧
    canAccessObject c2uSt (some "u1") ⟨"b", "k"⟩ ObjectPermission.WRITE = Except.ok true :=
  ⟨⟨rfl, by decide, rfl⟩,
   c2_owner_bypass c2uSt ⟨"b", "k"⟩ c2uPolicy "u1" ObjectPermission.WRITE rfl (by decide) rfl⟩

/-- Claim C3: `isPermissionAllowed` realizes the ordered lattice on
`{READ, WRITE}`: a granted WRITE satisfies both a READ and a WRITE request;
a granted READ satisfies a READ request but never a WRITE request.  The four
conjuncts are the full truth table. -/
theorem c3_permission_lattice :
    isPermissionAllowed ObjectPermission.READ ObjectPermission.WRITE = true ∧
    isPermissionAllowed ObjectPermission.WRITE ObjectPermission.WRITE = true ∧
    isPermissionAllowed ObjectPermission.READ ObjectPermission.READ = true ∧
    isPermissionAllowed ObjectPermission.WRITE ObjectPermission.READ = false := by
  decide

/-- Claim C4, amended: on a reference whose object is absent from the
backend, `setObjectAclPolicy` fails — with a plain
`Error("Object not found: bucket/key")`, not with the `ObjectNotFoundError`
class used elsewhere for missing objects — and performs no write: the
operation returns no successor state, so the backend is unchanged and no
object is created. -/
theorem c4_missing_object_no_write (st : S3State) (ref : ObjectRef) (p : ObjectAclPolicy)
    (h : st ref = none) :
    setObjectAclPolicy st ref p =
      Except.error (JsError.error ("Object not found: " ++ ref.bucket ++ "/" ++ ref.key)) := by
  simp only [setObjectAclPolicy, h]

/-- Counterexample to C4 as stated: on a missing object the thrown error is
the plain `Error` with an object-not-found message, and is not the
`ObjectNotFoundError` used by the rest of the storage layer. -/
theorem c4_counterexample :
    setObjectAclPolicy (fun _ => none) ⟨"b", "k"⟩ { owner := "u1", visibility := "private" } =
      Except.error (JsError.error "Object not found: b/k") ∧
    setObjectAclPolicy (fun _ => none) ⟨"b", "k"⟩ { owner := "u1", visibility := "private" } ≠
      Except.error JsError.objectNotFoundError :=
  ⟨rfl, fun h => JsError.noConfusion (Except.error.inj h)⟩

/-- Witness for C4: the empty backend at `(b, k)`. -/
theorem c4_witness :
    ((fun _ => none : S3State) ⟨"b", "k"⟩ = none) ∧
    setObjectAclPolicy (fun _ => none) ⟨"b", "k"⟩ { owner := "u1", visibility := "private" } =
      Except.error (JsError.error ("Object not found: " ++ "b" ++ "/" ++ "k")) :=
  ⟨rfl,
   c4_missing_object_no_write (fun _ => none) ⟨"b", "k"⟩
     { owner := "u1", visibility := "private" } rfl⟩

/-- Claim C5, amended: after a successful `setObjectAclPolicy st ref p`,
reading the policy back with `getObjectAclPolicy` returns exactly `p`, and
the written object preserves every custom metadata key other than the
reserved policy key, as well as the four HTTP metadata headers
(content-type, cache-control, content-encoding, content-disposition).  (The
unamended claim also requires the reserved policy key itself to keep its old
value, which the write deliberately replaces.) -/
theorem c5_set_get_roundtrip (st : S3State) (ref : ObjectRef) (p : ObjectAclPolicy)
    (obj : StoredObject) (st2 : S3State)
    (hobj : st ref = some obj)
    (hset : setObjectAclPolicy st ref p = Except.ok st2) :
    getObjectAclPolicy st2 ref = some p ∧
    ∃ obj2, st2 ref = some obj2 ∧
      obj2.metadata ACL_POLICY_METADATA_KEY = some (MetadataValue.policy p) ∧
      (∀ k, k ≠ ACL_POLICY_METADATA_KEY → obj2.metadata k = obj.metadata k) ∧
      obj2.contentType = obj.contentType ∧
      obj2.cacheControl = obj.cacheControl ∧
      obj2.contentEncoding = obj.contentEncoding ∧
      obj2.contentDisposition = obj.contentDisposition := by
  unfold setObjectAclPolicy at hset
  rw [hobj] at hset
  simp only [getMetadata, hobj] at hset
  injection hset with hst2
  subst hst2
  have key : ∀ A : StoredObject,
      (fun r => if r = ref then some A else st r) ref = some A := fun A => if_pos rfl
  constructor
  · simp [getObjectAclPolicy, getMetadata]
  · refine ⟨_, key _, ?_, ?_, rfl, rfl, rfl, rfl⟩
    · simp
    · intro k hk
      simp only [if_neg hk]
      cases hmk : obj.metadata k <;> simp [hmk]

/-- Counterexample to C5 as stated: an object that already holds a policy
has the reserved metadata key `custom-acl-policy` present before the write;
after writing a different policy that key no longer has its old value, so
not every custom metadata key present before the write keeps its value. -/
theorem c5_counterexample :
    setObjectAclPolicy c5St c5Ref c5NewPolicy = Except.ok c5Post ∧
    c5PreObj.metadata ACL_POLICY_METADATA_KEY = some (MetadataValue.policy c5OldPolicy) ∧
    (match c5Post c5Ref with
      | some obj2 => obj2.metadata ACL_POLICY_METADATA_KEY
      | none => none) = some (MetadataValue.policy c5NewPolicy) ∧
    MetadataValue.policy c5OldPolicy ≠ MetadataValue.policy c5NewPolicy :=
  ⟨rfl, rfl, rfl, by decide⟩

/-- Witness for C5: the concrete write of `c5NewPolicy` over `c5PreObj`
round-trips and preserves the non-reserved metadata and the HTTP headers. -/
theorem c5_witness :
    (c5St c5Ref = some c5PreObj ∧
      setObjectAclPolicy c5St c5Ref c5NewPolicy = Except.ok c5Post) ∧
    (getObjectAclPolicy c5Post c5Ref = some c5NewPolicy ∧
      ∃ obj2, c5Post c5Ref = some obj2 ∧
        obj2.metadata ACL_POLICY_METADATA_KEY = some (MetadataValue.policy c5NewPolicy) ∧
        (∀ k, k ≠ ACL_POLICY_METADATA_KEY → obj2.metadata k = c5PreObj.metadata k) ∧
        obj2.contentType = c5PreObj.contentType ∧
        obj2.cacheControl = c5PreObj.cacheControl ∧
        obj2.contentEncoding = c5PreObj.contentEncoding ∧
        obj2.contentDisposition = c5PreObj.contentDisposition) :=
  ⟨⟨rfl, rfl⟩, c5_set_get_roundtrip c5St c5Ref c5NewPolicy c5PreObj c5Post rfl rfl⟩

/-- Claim C6: `getObjectAclPolicy` returns `none` when the reserved policy
metadata field is absent and `none` when its contents fail to parse as a
policy; it is a total function into `Option` (the source wraps everything in
`try/catch`), so malformed policy data never raises. -/
theorem c6_get_policy_null (st : S3State) (ref : ObjectRef) (obj : StoredObject)
    (h : st ref = some obj) :
    (obj.metadata ACL_POLICY_METADATA_KEY = none → getObjectAclPolicy st ref = none) ∧
    (∀ s, obj.metadata ACL_POLICY_METADATA_KEY = some (MetadataValue.raw s) →
      getObjectAclPolicy st ref = none) := by
  constructor
  · intro h2
    simp [getObjectAclPolicy, getMetadata, h, h2]
  · intro s h2
    simp [getObjectAclPolicy, getMetadata, h, h2]

/-- Witness for C6: one object with no reserved field and one whose reserved
field holds an unparseable string; both read back as `none`. -/
theorem c6_witness :
    (c6St ⟨"b", "k"⟩ = some c6ObjAbsent ∧
      c6ObjAbsent.metadata ACL_POLICY_METADATA_KEY = none ∧
      getObjectAclPolicy c6St ⟨"b", "k"⟩ = none) ∧
    (c6St ⟨"b", "k2"⟩ = some c6ObjRaw ∧
      c6ObjRaw.metadata ACL_POLICY_METADATA_KEY = some (MetadataValue.raw "not json") ∧
      getObjectAclPolicy c6St ⟨"b", "k2"⟩ = none) :=
  ⟨⟨rfl, rfl, (c6_get_policy_null c6St ⟨"b", "k"⟩ c6ObjAbsent rfl).1 rfl⟩,
   ⟨rfl, rfl, (c6_get_policy_null c6St ⟨"b", "k2"⟩ c6ObjRaw rfl).2 "not json" rfl⟩⟩

/-- Claim C7, amended: the empty path does not fail — it does not start with
the separator, so it resolves like any other separator-free path, to
`{bucket: defaultBucket, key: ""}` (first conjunct, with `path` arbitrary).
The remaining rules hold as claimed: a separator-prefixed path with zero
non-empty segments fails with the invalid-path error, with one segment
resolves under the default bucket, and with two or more segments takes the
first segment as bucket and the rest joined by the separator as key. -/
theorem c7_parse_object_path (env : Env) (path : String) (hb : env.r2BucketName ≠ "") :
    (¬ jsStartsWith path "/" = true →
        parseObjectPath env path = Except.ok ⟨env.r2BucketName, path⟩) ∧
    (jsStartsWith path "/" = true →
      match (jsSplit '/' path).filter (fun p => p.length > 0) with
      | [] => parseObjectPath env path =
          Except.error (JsError.error "Invalid path: must contain at least a bucket name or object name")
      | [seg] => parseObjectPath env path = Except.ok ⟨env.r2BucketName, seg⟩
      | seg :: rest => parseObjectPath env path = Except.ok ⟨seg, jsJoin "/" rest⟩) := by
  constructor
  · intro hs
    unfold parseObjectPath
    rw [if_pos hs]
    simp [getBucketName, hb]
  · intro hs
    have hs2 : ¬ ¬ jsStartsWith path "/" = true := not_not_intro hs
    cases hsplit : (jsSplit '/' path).filter (fun p => p.length > 0) with
    | nil =>
      unfold parseObjectPath
      rw [if_neg hs2, hsplit]
    | cons seg rest =>
      cases rest with
      | nil =>
        unfold parseObjectPath
        rw [if_neg hs2, hsplit]
        simp [getBucketName, hb]
      | cons seg2 rest2 =>
        unfold parseObjectPath
        rw [if_neg hs2, hsplit]

/-- Counterexample to C7 as stated: with a configured default bucket, the
empty path does not fail with the invalid-path error; it resolves to the
default bucket with the empty key. -/
theorem c7_counterexample :
    parseObjectPath ⟨"bucket", "dir"⟩ "" = Except.ok ⟨"bucket", ""⟩ := rfl

/-- Witness for C7: `foo` resolves under the default bucket and `/b/k1/k2`
resolves to bucket `b` with key `k1/k2`. -/
theorem c7_witness :
    ((⟨"bkt", "d"⟩ : Env).r2BucketName ≠ "" ∧ ¬ jsStartsWith "foo" "/" = true ∧
      jsStartsWith "/b/k1/k2" "/" = true) ∧
    parseObjectPath ⟨"bkt", "d"⟩ "foo" = Except.ok ⟨"bkt", "foo"⟩ ∧
    parseObjectPath ⟨"bkt", "d"⟩ "/b/k1/k2" = Except.ok ⟨"b", "k1/k2"⟩ :=
  ⟨⟨by decide, by decide, by decide⟩,
   (c7_parse_object_path ⟨"bkt", "d"⟩ "foo" (by decide)).1 (by decide),
   (c7_parse_object_path ⟨"bkt", "d"⟩ "/b/k1/k2" (by decide)).2 (by decide)⟩

/-- Claim C8: `getObjectEntityFile` reports every failure as the same
`ObjectNotFoundError`: a path without the `/objects/` prefix; a path whose
split has fewer than two parts; and a well-formed path that resolves (under
the configured private dir) to a reference absent from the backend. -/
theorem c8_entity_uniform_not_found (env : Env) (st : S3State) (objectPath : String) :
    (¬ jsStartsWith objectPath "/objects/" = true →
      getObjectEntityFile env st objectPath = Except.error JsError.objectNotFoundError) ∧
    ((jsSplit '/' (jsSlice1 objectPath)).length < 2 →
      getObjectEntityFile env st objectPath = Except.error JsError.objectNotFoundError) ∧
    (∀ dir parsed,
      getPrivateObjectDir env = Except.ok dir →
      parseObjectPath env
          ((if jsEndsWith dir "/" = true then dir else dir ++ "/") ++
            jsJoin "/" ((jsSplit '/' (jsSlice1 objectPath)).drop 1)) = Except.ok parsed →
      st ⟨parsed.bucketName, parsed.objectName⟩ = none →
      getObjectEntityFile env st objectPath = Except.error JsError.objectNotFoundError) := by
  refine ⟨?_, ?_, ?_⟩
  · intro hs
    unfold getObjectEntityFile
    rw [if_pos hs]
  · intro hl
    by_cases hs : jsStartsWith objectPath "/objects/" = true
    · unfold getObjectEntityFile
      rw [if_neg (not_not_intro hs)]
      simp [hl]
    · unfold getObjectEntityFile
      rw [if_pos hs]
  · intro dir parsed hdir hparse hnone
    by_cases hs : jsStartsWith objectPath "/objects/" = true
    · by_cases hl : (jsSplit '/' (jsSlice1 objectPath)).length < 2
      · unfold getObjectEntityFile
        rw [if_neg (not_not_intro hs)]
        simp [hl]
      · unfold getObjectEntityFile
        rw [if_neg (not_not_intro hs)]
        simp only [hl, if_false, hdir, hparse, getMetadata, hnone]
        simp
    · unfold getObjectEntityFile
      rw [if_pos hs]

/-- Witness for C8: with a configured environment and an empty backend, the
wrong-prefix path `/foo`, the short path `x`, and the well-formed path
`/objects/abc` over a missing object all fail with `ObjectNotFoundError`. -/
theorem c8_witness :
    (¬ jsStartsWith "/foo" "/objects/" = true ∧
      getObjectEntityFile c8Env (fun _ => none) "/foo" =
        Except.error JsError.objectNotFoundError) ∧
    ((jsSplit '/' (jsSlice1 "x")).length < 2 ∧
      getObjectEntityFile c8Env (fun _ => none) "x" =
        Except.error JsError.objectNotFoundError) ∧
    (getPrivateObjectDir c8Env = Except.ok "/priv" ∧
      parseObjectPath c8Env
          ((if jsEndsWith "/priv" "/" = true then "/priv" else "/priv" ++ "/") ++
            jsJoin "/" ((jsSplit '/' (jsSlice1 "/objects/abc")).drop 1)) =
        Except.ok ⟨"priv", "abc"⟩ ∧
      (fun _ => none : S3State) ⟨"priv", "abc"⟩ = none ∧
      getObjectEntityFile c8Env (fun _ => none) "/objects/abc" =
        Except.error JsError.objectNotFoundError) :=
  ⟨⟨by decide, (c8_entity_uniform_not_found c8Env (fun _ => none) "/foo").1 (by decide)⟩,
   ⟨by decide, (c8_entity_uniform_not_found c8Env (fun _ => none) "x").2.1 (by decide)⟩,
   ⟨rfl, rfl, rfl,
    (c8_entity_uniform_not_found c8Env (fun _ => none) "/objects/abc").2.2 "/priv"
      ⟨"priv", "abc"⟩ rfl rfl rfl⟩⟩

/-- Claim C9: when rule iteration in `canAccessObject` reaches an ACL rule
(no short-circuit applied: the policy is not public-READ-accessible for the
request, the caller is present and non-empty, and is not the owner), the
evaluation fails with the `Unknown access group type` configuration error
thrown by the factory, rather than returning false. -/
theorem c9_unknown_group_type (st : S3State) (ref : ObjectRef) (p : ObjectAclPolicy)
    (uid : String) (perm : ObjectPermission) (rule : ObjectAclRule)
    (rest : List ObjectAclRule)
    (hp : getObjectAclPolicy st ref = some p)
    (hrules : p.aclRules = some (rule :: rest))
    (hvis : ¬ (p.visibility = "public" ∧ perm = ObjectPermission.READ))
    (hne : uid ≠ "") (hown : p.owner ≠ uid) :
    canAccessObject st (some uid) ref perm =
      Except.error (JsError.error ("Unknown access group type: " ++ rule.group.type)) := by
  simp only [canAccessObject, hp]
  rw [if_neg hvis]
  simp [hne, hown, hrules, checkAclRules, createObjectAccessGroup]

/-- Witness for C9: a private policy with one rule; the non-owner caller
`u2` triggers the configuration error on a READ request. -/
theorem c9_witness :
    (getObjectAclPolicy c9St ⟨"b", "k"⟩ = some c9Policy ∧
      c9Policy.aclRules = some [c9Rule] ∧
      ¬ (c9Policy.visibility = "public" ∧ ObjectPermission.READ = ObjectPermission.READ) ∧
      ("u2" : String) ≠ "" ∧ c9Policy.owner ≠ "u2") ∧
    canAccessObject c9St (some "u2") ⟨"b", "k"⟩ ObjectPermission.READ =
      Except.error (JsError.error ("Unknown access group type: " ++ c9Rule.group.type)) :=
  ⟨⟨rfl, rfl, by decide, by decide, by decide⟩,
   c9_unknown_group_type c9St ⟨"b", "k"⟩ c9Policy "u2" ObjectPermission.READ c9Rule []
     rfl rfl (by decide) (by decide) (by decide)⟩

/-- Claim C10: when an object carries no stored policy (the policy read
yields `none`, whether the field is absent, unparseable, or the object is
missing), `canAccessObject` denies every caller — present or absent — for
every requested permission. -/
theorem c10_no_policy_denies (st : S3State) (ref : ObjectRef) (uid : Option String)
    (perm : ObjectPermission)
    (h : getObjectAclPolicy st ref = none) :
    canAccessObject st uid ref perm = Except.ok false := by
  simp only [canAccessObject, h]

/-- Witness for C10: the empty backend denies both a present caller asking
WRITE and an absent caller asking READ. -/
theorem c10_witness :
    getObjectAclPolicy (fun _ => none) ⟨"b", "k"⟩ = none ∧
    canAccessObject (fun _ => none) (some "u1") ⟨"b", "k"⟩ ObjectPermission.WRITE =
      Except.ok false ∧
    canAccessObject (fun _ => none) none ⟨"b", "k"⟩ ObjectPermission.READ = Except.ok false :=
  ⟨rfl,
   c10_no_policy_denies (fun _ => none) ⟨"b", "k"⟩ (some "u1") ObjectPermission.WRITE rfl,
   c10_no_policy_denies (fun _ => none) ⟨"b", "k"⟩ none ObjectPermission.READ rfl⟩

end AllOut
